import Mathlib

/-!
Shallow embedding of `zipline/finance/ledger.py` (classes `PositionTracker`
and `Ledger`) for checking the repository's specification.

Conventions of the embedding:
* Python floats are modelled as `ℚ`.
* Python exceptions (`AttributeError`, `ZeroDivisionError`, `KeyError`) are
  modelled with `Except PyError`; operations that cannot raise stay pure.
* Python `dict` / `OrderedDict` objects are modelled as association lists in
  insertion order (Python 3.7+ `dict` preserves insertion order); assignment
  to an existing key updates the value in place, assignment to a fresh key
  appends at the end, exactly as in CPython.
* `np.inf` values are modelled with the `PyVal.inf` constructor.
-/

/-- Python exceptions that the modelled code paths can raise. -/
inductive PyError where
  | attributeError
  | zeroDivisionError
  | keyError
  deriving DecidableEq, Repr

/-- A Python numeric value that is either a finite float (as `ℚ`) or `np.inf`. -/
inductive PyVal where
  | num (q : ℚ)
  | inf
  deriving DecidableEq, Repr

/-- Python float division: raises `ZeroDivisionError` on a zero denominator. -/
def pyDiv (a b : ℚ) : Except PyError ℚ :=
  if b = 0 then .error .zeroDivisionError else .ok (a / b)

/-- Asset kinds: `Future` carries a contract multiplier (an integral
contract size), everything else (`Equity`) does not.  This is the tagged
form of the source's `isinstance(asset, Future)` checks. -/
inductive AssetKind where
  | equity
  | future (mult : Nat)
  deriving DecidableEq, Repr

/-- An asset: security identifier plus kind. -/
structure Asset where
  sid : Nat
  kind : AssetKind
  deriving DecidableEq, Repr

/-- The source's `isinstance(asset, Future)`. -/
def Asset.isFuture (a : Asset) : Bool :=
  match a.kind with
  | .future _ => true
  | .equity => false

/-- The source's `asset.multiplier`; only ever read on `Future` assets. -/
def Asset.multiplier (a : Asset) : ℚ :=
  match a.kind with
  | .future m => (m : ℚ)
  | .equity => 1

/-- A fill, `zp.Transaction`: asset, signed quantity, execution price,
timestamp (`dt`, modelled as `Nat`). -/
structure Transaction where
  asset : Asset
  amount : ℚ
  price : ℚ
  dt : Nat
  deriving DecidableEq, Repr

/-- An order record, `zp.Order`; `to_dict` is modelled as the identity, so the
record itself stands for the flattened dict.  `version` distinguishes
successive records carrying the same order id. -/
structure Order where
  id : Nat
  dt : Nat
  version : Nat
  deriving DecidableEq, Repr

namespace alist

variable {α β : Type} [DecidableEq α]

/-- Dictionary lookup (first occurrence). -/
def lookup : List (α × β) → α → Option β
  | [], _ => none
  | (k', v') :: rest, k => if k' = k then some v' else lookup rest k

/-- Dictionary assignment `d[k] = v`: updates an existing key in place,
appends a fresh key at the end (CPython insertion-order semantics). -/
def insertOrUpdate : List (α × β) → α → β → List (α × β)
  | [], k, v => [(k, v)]
  | (k', v') :: rest, k, v =>
      if k' = k then (k, v) :: rest else (k', v') :: insertOrUpdate rest k v

/-- Dictionary deletion `del d[k]`.  Association lists built only through
`insertOrUpdate` never hold duplicate keys, so removing every pair with the
key is the same as removing the unique one. -/
def erase : List (α × β) → α → List (α × β)
  | [], _ => []
  | (k', v') :: rest, k =>
      if k' = k then erase rest k else (k', v') :: erase rest k

/-- The source's `move_to_end(ordered_dict, key, last=True)`
(`OrderedDict.move_to_end`): the existing entry is moved to the last
position. -/
def move_to_end (l : List (α × β)) (k : α) : List (α × β) :=
  match lookup l k with
  | some v => erase l k ++ [(k, v)]
  | none => l

end alist

/-- Modelled from the spec: the `Position` record lives in
`zipline/finance/position.py`, which is not among the provided sources.
Per spec §3, a Position holds the instrument identity, signed quantity
`amount`, volume-weighted average entry price `cost_basis`, and the most
recent observed trade price `last_sale_price`. -/
structure Position where
  asset : Asset
  amount : ℚ
  cost_basis : ℚ
  last_sale_price : ℚ
  deriving DecidableEq, Repr

/-- Modelled from the spec: a freshly created `Position(asset)` holds no
shares and has zero cost basis and last sale price. -/
def Position.new (asset : Asset) : Position :=
  { asset := asset, amount := 0, cost_basis := 0, last_sale_price := 0 }

/-- Modelled from the spec: `Position.update` (in the missing
`position.py`).  Per spec §4.1 it applies a transaction's quantity delta and
execution price — "updates `amount` and recomputes `cost_basis` as a
quantity-weighted average when the position is increased or flipped in the
same direction, leaves `cost_basis` unchanged on pure reduction". -/
def Position.update (p : Position) (txn : Transaction) : Position :=
  let total_shares := p.amount + txn.amount
  let cost_basis :=
    if total_shares = 0 then 0
    else if (0 ≤ p.amount ∧ 0 ≤ txn.amount) ∨ (p.amount ≤ 0 ∧ txn.amount ≤ 0) then
      (p.cost_basis * p.amount + txn.price * txn.amount) / total_shares
    else p.cost_basis
  { p with amount := total_shares, cost_basis := cost_basis }

/-- A pending cash-dividend obligation, as appended to
`_unpaid_dividends[pay_date]` (the `div_owed` dict's `amount` field). -/
structure CashPayment where
  amount : ℚ
  deriving DecidableEq, Repr

/-- A pending stock-dividend obligation, as appended to
`_unpaid_stock_dividends[pay_date]` (`payment_asset` and `share_count`). -/
structure StockPayment where
  payment_asset : Asset
  share_count : ℚ
  deriving DecidableEq, Repr

/-- `PositionStats`, the namedtuple produced by `PositionTracker.stats`. -/
structure PositionStats where
  net_exposure : ℚ
  gross_value : ℚ
  gross_exposure : ℚ
  short_value : ℚ
  short_exposure : ℚ
  shorts_count : Nat
  long_value : ℚ
  long_exposure : ℚ
  longs_count : Nat
  net_value : ℚ
  deriving DecidableEq, Repr

/-- Mutable state of the aggregation loop inside `PositionTracker.stats`
(source lines 323-349). -/
structure StatsAcc where
  net_value : ℚ
  long_value : ℚ
  short_value : ℚ
  long_exposure : ℚ
  short_exposure : ℚ
  longs_count : Nat
  shorts_count : Nat
  deriving DecidableEq, Repr

/-- One iteration of the loop in `PositionTracker.stats` (lines 326-349).
For a Future the value is zero and the exposure is scaled by the
multiplier.  Note line 343: `long_exposure = exposure` overwrites the
accumulator, while line 347 `short_exposure += exposure` accumulates. -/
def statsStep (acc : StatsAcc) (position : Position) : StatsAcc :=
  let exposure := position.amount * position.last_sale_price
  let (value, exposure) :=
    match position.asset.kind with
    | .future m => ((0 : ℚ), exposure * (m : ℚ))
    | .equity => (exposure, exposure)
  let acc :=
    if 0 < exposure then
      { acc with
        longs_count := acc.longs_count + 1
        long_value := acc.long_value + value
        long_exposure := exposure }
    else if exposure < 0 then
      { acc with
        shorts_count := acc.shorts_count + 1
        short_value := acc.short_value + value
        short_exposure := acc.short_exposure + exposure }
    else acc
  { acc with net_value := acc.net_value + value }

/-- The recomputation performed by `PositionTracker.stats` when the cache is
dirty (source lines 323-369), as a function of the positions dict. -/
def statsOf (positions : List (Asset × Position)) : PositionStats :=
  let a := positions.foldl (fun acc x => statsStep acc x.2)
    { net_value := 0, long_value := 0, short_value := 0, long_exposure := 0,
      short_exposure := 0, longs_count := 0, shorts_count := 0 }
  { net_exposure := a.long_exposure + a.short_exposure
    gross_value := a.long_value - a.short_value
    gross_exposure := a.long_exposure - a.short_exposure
    short_value := a.short_value
    short_exposure := a.short_exposure
    shorts_count := a.shorts_count
    long_value := a.long_value
    long_exposure := a.long_exposure
    longs_count := a.longs_count
    net_value := a.net_value }

/-- State of a `PositionTracker`: the positions dict, the two pay-date keyed
obligation dicts, and the stats cache (`_dirty_stats`, `_stats`).  Pay dates
are modelled as `Nat`. -/
structure PositionTracker where
  positions : List (Asset × Position)
  _unpaid_dividends : List (Nat × List CashPayment)
  _unpaid_stock_dividends : List (Nat × List StockPayment)
  _dirty_stats : Bool
  _stats : Option PositionStats
  deriving DecidableEq, Repr

/-- `PositionTracker.__init__`: empty book, empty obligation dicts, dirty
stats cache holding `None`. -/
def PositionTracker.empty : PositionTracker :=
  { positions := [], _unpaid_dividends := [], _unpaid_stock_dividends := [],
    _dirty_stats := true, _stats := none }

/-- `PositionTracker.execute_transaction` (source lines 97-118): create the
position if absent, apply the transaction, and delete the position if its
resulting amount is zero. -/
def PositionTracker.execute_transaction (pt : PositionTracker) (txn : Transaction) :
    PositionTracker :=
  let pt := { pt with _dirty_stats := true }
  let position :=
    match alist.lookup pt.positions txn.asset with
    | some p => p
    | none => Position.new txn.asset
  let position := position.update txn
  if position.amount = 0 then
    { pt with positions := alist.erase pt.positions txn.asset }
  else
    { pt with positions := alist.insertOrUpdate pt.positions txn.asset position }

/-- `PositionTracker.pay_dividends` (source lines 187-227).  The cash
obligation list for the session is dropped once read (`del
self._unpaid_dividends[next_trading_day]`); the stock obligation list is
read but never dropped (lines 209-212 have no `del`).  Stock payments
create the payment asset's position if absent and add the owed share
count.  Returns the updated tracker and the net cash payment. -/
def PositionTracker.pay_dividends (pt : PositionTracker) (next_trading_day : Nat) :
    PositionTracker × ℚ :=
  let (payments, unpaid) :=
    match alist.lookup pt._unpaid_dividends next_trading_day with
    | some ps => (ps, alist.erase pt._unpaid_dividends next_trading_day)
    | none => ([], pt._unpaid_dividends)
  let net_cash_payment := payments.foldl (fun acc p => acc + p.amount) (0 : ℚ)
  let stock_payments :=
    match alist.lookup pt._unpaid_stock_dividends next_trading_day with
    | some ps => ps
    | none => []
  let positions := stock_payments.foldl
    (fun ps sp =>
      let position :=
        match alist.lookup ps sp.payment_asset with
        | some p => p
        | none => Position.new sp.payment_asset
      alist.insertOrUpdate ps sp.payment_asset
        { position with amount := position.amount + sp.share_count })
    pt.positions
  ({ pt with positions := positions, _unpaid_dividends := unpaid }, net_cash_payment)

/-- `PositionTracker.sync_last_sale_prices` (source lines 287-316,
`handle_non_market_minutes=False` branch; the other branch differs only in
which price-source query it makes).  `prices a = none` models a NaN spot
price, which leaves that position untouched.  Marks the stats cache
dirty. -/
def PositionTracker.sync_last_sale_prices (pt : PositionTracker)
    (prices : Asset → Option ℚ) : PositionTracker :=
  { pt with
    _dirty_stats := true
    positions := pt.positions.map (fun x =>
      match prices x.1 with
      | some p => (x.1, { x.2 with last_sale_price := p })
      | none => x) }

/-- The `PositionTracker.stats` property (source lines 318-369): return the
cached namedtuple when not dirty, otherwise recompute, cache, and clear the
dirty flag.  When the cache is clean but holds `None` (only possible in
states no execution reaches from `__init__`), the caller's first attribute
access on the returned `None` raises `AttributeError`; the error is surfaced
here. -/
def PositionTracker.stats (pt : PositionTracker) :
    Except PyError (PositionStats × PositionTracker) :=
  if !pt._dirty_stats then
    match pt._stats with
    | some s => .ok (s, pt)
    | none => .error .attributeError
  else
    let s := statsOf pt.positions
    .ok (s, { pt with _dirty_stats := false, _stats := some s })

/-- The `zp.Portfolio` record owned by the ledger (`self._portfolio`). -/
structure Portfolio where
  starting_cash : ℚ
  cash_flow : ℚ
  cash : ℚ
  positions_value : ℚ
  positions_exposure : ℚ
  portfolio_value : ℚ
  pnl : ℚ
  returns : ℚ
  deriving DecidableEq, Repr

/-- `zp.Portfolio(start_date, capital_base)`: cash and portfolio value start
at the capital base, everything else at zero. -/
def Portfolio.init (capital_base : ℚ) : Portfolio :=
  { starting_cash := capital_base, cash_flow := 0, cash := capital_base,
    positions_value := 0, positions_exposure := 0,
    portfolio_value := capital_base, pnl := 0, returns := 0 }

instance : Inhabited Portfolio := ⟨Portfolio.init 0⟩

/-- The `zp.Account` record: the fields written by the `Ledger.account`
property (source lines 853-875). -/
structure Account where
  settled_cash : PyVal
  accrued_interest : PyVal
  buying_power : PyVal
  equity_with_loan : PyVal
  total_positions_value : PyVal
  total_positions_exposure : PyVal
  regt_equity : PyVal
  regt_margin : PyVal
  initial_margin_requirement : PyVal
  maintenance_margin_requirement : PyVal
  available_funds : PyVal
  excess_liquidity : PyVal
  cushion : PyVal
  day_trades_remaining : PyVal
  net_liquidation : PyVal
  gross_leverage : PyVal
  net_leverage : PyVal
  deriving DecidableEq, Repr

/-- `zp.Account(portfolio)`: the initial account view.  Its contents are
unobservable through the modelled API because `_dirty_account` starts
`True`, so every first read recomputes all fields. -/
def Account.init : Account :=
  { settled_cash := .num 0, accrued_interest := .num 0, buying_power := .inf,
    equity_with_loan := .num 0, total_positions_value := .num 0,
    total_positions_exposure := .num 0, regt_equity := .num 0,
    regt_margin := .inf, initial_margin_requirement := .num 0,
    maintenance_margin_requirement := .num 0, available_funds := .num 0,
    excess_liquidity := .num 0, cushion := .num 0, day_trades_remaining := .inf,
    net_liquidation := .num 0, gross_leverage := .num 0, net_leverage := .num 0 }

/-- `self._account_overrides`: the dict built by
`Ledger.override_account_fields`, holding exactly the caller-supplied
fields (`not_overridden` arguments are absent, modelled as `none`). -/
structure AccountOverrides where
  settled_cash : Option PyVal := none
  accrued_interest : Option PyVal := none
  buying_power : Option PyVal := none
  equity_with_loan : Option PyVal := none
  total_positions_value : Option PyVal := none
  total_positions_exposure : Option PyVal := none
  regt_equity : Option PyVal := none
  regt_margin : Option PyVal := none
  initial_margin_requirement : Option PyVal := none
  maintenance_margin_requirement : Option PyVal := none
  available_funds : Option PyVal := none
  excess_liquidity : Option PyVal := none
  cushion : Option PyVal := none
  day_trades_remaining : Option PyVal := none
  leverage : Option PyVal := none
  net_leverage : Option PyVal := none
  net_liquidation : Option PyVal := none
  deriving DecidableEq, Repr

/-- `account_dict.update(self._account_overrides)` (source line 878): every
explicitly supplied override replaces the computed default. -/
def applyOverrides (a : Account) (o : AccountOverrides) : Account :=
  { settled_cash := o.settled_cash.getD a.settled_cash
    accrued_interest := o.accrued_interest.getD a.accrued_interest
    buying_power := o.buying_power.getD a.buying_power
    equity_with_loan := o.equity_with_loan.getD a.equity_with_loan
    total_positions_value := o.total_positions_value.getD a.total_positions_value
    total_positions_exposure :=
      o.total_positions_exposure.getD a.total_positions_exposure
    regt_equity := o.regt_equity.getD a.regt_equity
    regt_margin := o.regt_margin.getD a.regt_margin
    initial_margin_requirement :=
      o.initial_margin_requirement.getD a.initial_margin_requirement
    maintenance_margin_requirement :=
      o.maintenance_margin_requirement.getD a.maintenance_margin_requirement
    available_funds := o.available_funds.getD a.available_funds
    excess_liquidity := o.excess_liquidity.getD a.excess_liquidity
    cushion := o.cushion.getD a.cushion
    day_trades_remaining := o.day_trades_remaining.getD a.day_trades_remaining
    net_liquidation := o.net_liquidation.getD a.net_liquidation
    gross_leverage := o.leverage.getD a.gross_leverage
    net_leverage := o.net_leverage.getD a.net_leverage }

/-- State of a `Ledger`.  `_portfolio_dirty_attr` models the attribute
written by line 497, `self._portfolio_dirty = True`: that name does not
match the `_dirty_portfolio` property, so the assignment creates a fresh
attribute that nothing else reads. -/
structure Ledger where
  _dirty_portfolio : Bool
  _dirty_account : Bool
  _portfolio : Portfolio
  _account : Account
  _account_overrides : AccountOverrides
  position_tracker : PositionTracker
  _payout_last_sale_prices : List (Asset × ℚ)
  _processed_transactions : List (Nat × List Transaction)
  _orders_by_modified : List (Nat × List (Nat × Order))
  _orders_by_id : List (Nat × Order)
  _portfolio_dirty_attr : Bool
  deriving DecidableEq, Repr

/-- `Ledger.__init__` (source lines 420-457): the `__dirty_portfolio` flag
starts `False`, the account flag starts `True`. -/
def Ledger.init (capital_base : ℚ) : Ledger :=
  { _dirty_portfolio := false, _dirty_account := true,
    _portfolio := Portfolio.init capital_base, _account := Account.init,
    _account_overrides := {}, position_tracker := PositionTracker.empty,
    _payout_last_sale_prices := [], _processed_transactions := [],
    _orders_by_modified := [], _orders_by_id := [],
    _portfolio_dirty_attr := false }

instance : Inhabited Ledger := ⟨Ledger.init 0⟩

/-- The `_dirty_portfolio` property setter (source lines 463-469): marking
the portfolio dirty also marks the account dirty; clearing it clears only
itself. -/
def Ledger.set_dirty_portfolio (l : Ledger) (value : Bool) : Ledger :=
  if value then
    { l with _dirty_portfolio := true, _dirty_account := true }
  else
    { l with _dirty_portfolio := false }

/-- `Ledger.sync_last_sale_prices` (source lines 488-497): delegates to the
tracker, then executes `self._portfolio_dirty = True` — which writes the
misspelled attribute, not the `_dirty_portfolio` property. -/
def Ledger.sync_last_sale_prices (l : Ledger) (prices : Asset → Option ℚ) : Ledger :=
  { l with
    position_tracker := l.position_tracker.sync_last_sale_prices prices
    _portfolio_dirty_attr := true }

/-- `Ledger._calculate_execution_cash_flow` (source lines 499-506): zero for
Futures, `-price * amount` otherwise. -/
def Ledger.calculate_execution_cash_flow (transaction : Transaction) : ℚ :=
  if transaction.asset.isFuture then 0
  else -1 * transaction.price * transaction.amount

/-- `Ledger._calculate_payout` (source lines 508-511). -/
def Ledger.calculate_payout (multiplier amount old_price price : ℚ) : ℚ :=
  (price - old_price) * multiplier * amount

/-- `Ledger.process_transaction` (source lines 513-559).  The tracker's
`execute_transaction` runs first (line 521), so by the time the Future
payout block reads `position.amount` (line 536) the transaction's own
delta has already been applied.  If that delta closed the position, the
position was deleted and `self.position_tracker.positions[asset]` yields
the positiondict's missing-key value `None`, whose `.amount` access raises
`AttributeError`. -/
def Ledger.process_transaction (l : Ledger) (transaction : Transaction) :
    Except PyError Ledger := do
  let l := { l with
    position_tracker := l.position_tracker.execute_transaction transaction }
  let l := l.set_dirty_portfolio true
  let l := { l with _portfolio := { l._portfolio with
    cash_flow := l._portfolio.cash_flow +
      Ledger.calculate_execution_cash_flow transaction } }
  let asset := transaction.asset
  let l ←
    if asset.isFuture then
      match alist.lookup l._payout_last_sale_prices asset with
      | none =>
          .ok { l with _payout_last_sale_prices :=
            alist.insertOrUpdate l._payout_last_sale_prices asset transaction.price }
      | some old_price => do
          let position ←
            match alist.lookup l.position_tracker.positions asset with
            | some p => Except.ok p
            | none => Except.error PyError.attributeError
          let amount := position.amount
          let price := transaction.price
          let l := l.set_dirty_portfolio true
          let l := { l with _portfolio := { l._portfolio with
            cash := l._portfolio.cash +
              Ledger.calculate_payout asset.multiplier amount old_price price } }
          if amount + transaction.amount = 0 then
            .ok { l with _payout_last_sale_prices :=
              alist.erase l._payout_last_sale_prices asset }
          else
            .ok { l with _payout_last_sale_prices :=
              alist.insertOrUpdate l._payout_last_sale_prices asset price }
    else
      .ok l
  let day_txns :=
    match alist.lookup l._processed_transactions transaction.dt with
    | some txns => txns ++ [transaction]
    | none => [transaction]
  .ok { l with _processed_transactions :=
    alist.insertOrUpdate l._processed_transactions transaction.dt day_txns }

/-- `Ledger.process_order` (source lines 574-594).  When the order's
timestamp has no bucket yet (the `KeyError` branch), the per-id journal
entry is assigned in place — an existing id keeps its old position — and no
`move_to_end` runs; only the `else` branch moves the entry to the end of
both journals. -/
def Ledger.process_order (l : Ledger) (order : Order) : Ledger :=
  let order_dict := order
  match alist.lookup l._orders_by_modified order.dt with
  | none =>
      { l with
        _orders_by_modified :=
          alist.insertOrUpdate l._orders_by_modified order.dt [(order.id, order_dict)]
        _orders_by_id :=
          alist.insertOrUpdate l._orders_by_id order.id order_dict }
  | some dt_orders =>
      let dt_orders := alist.insertOrUpdate dt_orders order.id order_dict
      let dt_orders := alist.move_to_end dt_orders order.id
      let orders_by_id := alist.insertOrUpdate l._orders_by_id order.id order_dict
      let orders_by_id := alist.move_to_end orders_by_id order.id
      { l with
        _orders_by_modified :=
          alist.insertOrUpdate l._orders_by_modified order.dt dt_orders
        _orders_by_id := orders_by_id }

/-- Attribute access `positions.amount` on the positions dictionary itself
(source line 720, `amount = positions.amount` inside `_get_payout_total`):
the dict has no attribute `amount`, so this raises `AttributeError`. -/
def positiondictAmount (_positions : List (Asset × Position)) : Except PyError ℚ :=
  .error .attributeError

/-- `Ledger._get_payout_total` (source lines 714-728): loop over the
recorded reference prices; each iteration reads `positions[asset]`, then
`positions.amount` (the dict-attribute access), then accumulates
`_calculate_payout(asset.multiplier, amount, old_price,
position.last_sale_price)`. -/
def Ledger.get_payout_total (payout_last_sale_prices : List (Asset × ℚ))
    (positions : List (Asset × Position)) : Except PyError ℚ :=
  payout_last_sale_prices.foldlM
    (fun total x => do
      let position := alist.lookup positions x.1
      let amount ← positiondictAmount positions
      let last_sale_price ←
        match position with
        | some p => Except.ok p.last_sale_price
        | none => Except.error PyError.attributeError
      Except.ok (total +
        Ledger.calculate_payout x.1.multiplier amount x.2 last_sale_price))
    (0 : ℚ)

/-- The recomputation performed by the `Ledger.portfolio` property when the
dirty flag is set (source lines 745-778), as a pure function of the old
portfolio record, the position stats, and the payout total. -/
def portfolioRecompute (p : Portfolio) (position_stats : PositionStats)
    (payout : ℚ) : Portfolio :=
  let position_value := position_stats.net_value
  let cash := p.starting_cash + p.cash_flow + payout
  let start_value := p.portfolio_value
  let end_value := cash + position_value
  let pnl := end_value - start_value
  let returns := if start_value ≠ 0 then pnl / start_value else 0
  { p with
    positions_value := position_value
    positions_exposure := position_stats.net_exposure
    cash := cash
    portfolio_value := end_value
    pnl := p.pnl + pnl
    returns := (1 + p.returns) * (1 + returns) - 1 }

/-- The `Ledger.portfolio` property (source lines 730-782): return the
cached record when not dirty; otherwise pull the tracker stats, compute the
outstanding payout total, rebuild the portfolio record, and clear the dirty
flag (clearing does not touch the account flag). -/
def Ledger.portfolio (l : Ledger) : Except PyError (Portfolio × Ledger) :=
  if !l._dirty_portfolio then .ok (l._portfolio, l)
  else do
    let (position_stats, pt) ← l.position_tracker.stats
    let payout ← Ledger.get_payout_total l._payout_last_sale_prices pt.positions
    let p := portfolioRecompute l._portfolio position_stats payout
    .ok (p, { l with _portfolio := p, position_tracker := pt,
                     _dirty_portfolio := false })

/-- `Ledger._calculate_net_liquidation` (source lines 784-786). -/
def Ledger.calculate_net_liquidation (ending_cash long_value short_value : ℚ) : ℚ :=
  ending_cash + long_value + short_value

/-- `Ledger._calculate_leverage` (source lines 788-793): the quotient when
the net liquidation value is nonzero, `np.inf` otherwise. -/
def Ledger.calculate_leverage (exposure net_liquidation : ℚ) : PyVal :=
  if net_liquidation ≠ 0 then .num (exposure / net_liquidation)
  else .inf

/-- `Ledger.calculate_period_stats` (source lines 795-811). -/
def Ledger.calculate_period_stats (l : Ledger) :
    Except PyError ((ℚ × PyVal × PyVal) × Ledger) := do
  let (position_stats, pt) ← l.position_tracker.stats
  let net_liquidation := Ledger.calculate_net_liquidation
    l._portfolio.cash position_stats.long_value position_stats.short_value
  let gross_leverage := Ledger.calculate_leverage
    position_stats.gross_exposure net_liquidation
  let net_leverage := Ledger.calculate_leverage
    position_stats.net_exposure net_liquidation
  .ok ((net_liquidation, gross_leverage, net_leverage),
    { l with position_tracker := pt })

/-- `Ledger.override_account_fields` (source lines 813-838): replaces the
whole overrides dict with the supplied fields and marks the account
dirty. -/
def Ledger.override_account_fields (l : Ledger) (overrides : AccountOverrides) :
    Ledger :=
  { l with _dirty_account := true, _account_overrides := overrides }

/-- The `Ledger.account` property (source lines 840-883): return the cache
when not dirty; otherwise read `self.portfolio`, fill in the default field
values — `cushion = portfolio.cash / portfolio.portfolio_value` (line 869)
is an unguarded float division — take the leverage triple from
`calculate_period_stats`, apply the overrides, and clear the account dirty
flag. -/
def Ledger.account (l : Ledger) : Except PyError (Account × Ledger) :=
  if !l._dirty_account then .ok (l._account, l)
  else do
    let (portfolio, l) ← l.portfolio
    let cushion ← pyDiv portfolio.cash portfolio.portfolio_value
    let ((net_liquidation, gross_leverage, net_leverage), l) ←
      l.calculate_period_stats
    let account : Account :=
      { settled_cash := .num portfolio.cash
        accrued_interest := .num 0
        buying_power := .inf
        equity_with_loan := .num portfolio.portfolio_value
        total_positions_value := .num (portfolio.portfolio_value - portfolio.cash)
        total_positions_exposure := .num portfolio.positions_exposure
        regt_equity := .num portfolio.cash
        regt_margin := .inf
        initial_margin_requirement := .num 0
        maintenance_margin_requirement := .num 0
        available_funds := .num portfolio.cash
        excess_liquidity := .num portfolio.cash
        cushion := .num cushion
        day_trades_remaining := .inf
        net_liquidation := .num net_liquidation
        gross_leverage := gross_leverage
        net_leverage := net_leverage }
    let account := applyOverrides account l._account_overrides
    .ok (account, { l with _account := account, _dirty_account := false })

/-- Fold of `PositionTracker.execute_transaction` over a list of fills. -/
def runTransactions (pt : PositionTracker) (txns : List Transaction) :
    PositionTracker :=
  txns.foldl PositionTracker.execute_transaction pt

/-- The signed quantity the book records for an asset (zero when the asset
is absent). -/
def amountOf (pt : PositionTracker) (a : Asset) : ℚ :=
  match alist.lookup pt.positions a with
  | some p => p.amount
  | none => 0

/-! Concrete instruments used by the example states below. -/

/-- A leverage-bearing instrument: a Future with contract multiplier 5. -/
def futA : Asset := ⟨1, .future 5⟩

/-- Ordinary equities. -/
def eqA : Asset := ⟨2, .equity⟩

def eqB : Asset := ⟨3, .equity⟩

def eqC : Asset := ⟨4, .equity⟩

def eqD : Asset := ⟨5, .equity⟩

/-- A book holding only a cash dividend obligation of 7 due on pay-date 0. -/
def cashDivTracker : PositionTracker :=
  { PositionTracker.empty with _unpaid_dividends := [(0, [⟨7⟩])] }

/-- A book holding 10 shares of `eqA`, one pending cash dividend of 7 and
one pending stock dividend of 5 shares of `eqA`, both due on pay-date 0. -/
def divTracker : PositionTracker :=
  { PositionTracker.empty with
    positions :=
      [(eqA, { asset := eqA, amount := 10, cost_basis := 1, last_sale_price := 3 })]
    _unpaid_dividends := [(0, [⟨7⟩])]
    _unpaid_stock_dividends := [(0, [⟨eqA, 5⟩])] }

/-- A dirty ledger holding 2 contracts of `futA` (last sale price 55) with
recorded reference price 50: the state reached right after the C1 scenario,
at the moment the portfolio property is read. -/
def futLedger : Ledger :=
  { Ledger.init 1000 with
    _dirty_portfolio := true
    position_tracker :=
      { PositionTracker.empty with
        positions :=
          [(futA, { asset := futA, amount := 2, cost_basis := 0,
                    last_sale_price := 55 })] }
    _payout_last_sale_prices := [(futA, 50)] }

/-- A clean (not dirty) ledger whose cached snapshot was computed while
`eqA`'s last sale price was 10: 10 shares, positions_value 100, portfolio
value 1100. -/
def cleanLedger : Ledger :=
  { Ledger.init 1000 with
    _dirty_portfolio := false
    _portfolio :=
      { Portfolio.init 1000 with positions_value := 100, portfolio_value := 1100 }
    position_tracker :=
      { PositionTracker.empty with
        positions :=
          [(eqA, { asset := eqA, amount := 10, cost_basis := 10,
                   last_sale_price := 10 })] } }

/-- `cleanLedger` after `sync_last_sale_prices` has observed price 12. -/
def syncedLedger : Ledger :=
  cleanLedger.sync_last_sale_prices (fun _ => some 12)

/-- Four held positions: two longs with exposures 10 and 20, two shorts
with exposures -5 and -7. -/
def statsPositions : List (Asset × Position) :=
  [(eqA, { asset := eqA, amount := 1, cost_basis := 0, last_sale_price := 10 }),
   (eqB, { asset := eqB, amount := 1, cost_basis := 0, last_sale_price := 20 }),
   (eqC, { asset := eqC, amount := -1, cost_basis := 0, last_sale_price := 5 }),
   (eqD, { asset := eqD, amount := -1, cost_basis := 0, last_sale_price := 7 })]

/-- The ledger after `process_order` on order id 0 at time 0, order id 1 at
time 0, and an update to order id 0 at time 1 (a timestamp with no bucket
yet). -/
def ordersLedger : Ledger :=
  (((Ledger.init 0).process_order ⟨0, 0, 1⟩).process_order ⟨1, 0, 1⟩).process_order
    ⟨0, 1, 2⟩

/-- The tracker produced by reading `stats` on a fresh (dirty) tracker:
clean flag, cached stats of the empty book. -/
def emptyStatsTracker : PositionTracker :=
  { PositionTracker.empty with _dirty_stats := false, _stats := some (statsOf []) }

/-- First step of the C9 scenario: a fresh ledger with capital base 1000
whose first mutation batch accumulated a cash flow of 50 and marked the
portfolio dirty. -/
def compoundLedger1 : Ledger :=
  { Ledger.init 1000 with
    _dirty_portfolio := true
    _portfolio := { Portfolio.init 1000 with cash_flow := 50 } }

/-- The portfolio snapshot the first read of `compoundLedger1` produces. -/
def compoundSnap1 : Portfolio :=
  portfolioRecompute compoundLedger1._portfolio (statsOf []) 0

/-- The ledger state after the first read of `compoundLedger1`. -/
def compoundLedger1' : Ledger :=
  { compoundLedger1 with
    _portfolio := compoundSnap1
    position_tracker := emptyStatsTracker
    _dirty_portfolio := false }

/-- Second step of the C9 scenario: a further mutation batch raises the
accumulated cash flow to 120 and marks the portfolio dirty again. -/
def compoundLedger2 : Ledger :=
  { compoundLedger1' with
    _dirty_portfolio := true
    _portfolio := { compoundSnap1 with cash_flow := 120 } }

/-- The portfolio snapshot the second read produces. -/
def compoundSnap2 : Portfolio :=
  portfolioRecompute compoundLedger2._portfolio (statsOf []) 0

/-- The ledger state after the second read. -/
def compoundLedger2' : Ledger :=
  { compoundLedger2 with
    _portfolio := compoundSnap2
    position_tracker := emptyStatsTracker
    _dirty_portfolio := false }

/-!
Theorems.  Each claim of the specification audit is settled by one theorem
below (plus a witness or counterexample where required).
-/

theorem exceptOkBind {α β ε : Type} (a : α) (f : α → Except ε β) :
    (Except.ok a : Except ε α) >>= f = f a := rfl

theorem exceptErrorBind {α β ε : Type} (e : ε) (f : α → Except ε β) :
    (Except.error e : Except ε α) >>= f = .error e := rfl

theorem exceptMapOk {α β ε : Type} (a : α) (f : α → β) :
    (Except.ok a : Except ε α).map f = .ok (f a) := rfl

theorem exceptMapError {α β ε : Type} (e : ε) (f : α → β) :
    (Except.error e : Except ε α).map f = .error e := rfl

theorem exceptBindEq {α β ε : Type} (x : Except ε α) (f : α → Except ε β) :
    x.bind f = x >>= f := rfl

theorem alist.lookup_erase_self {α β : Type} [DecidableEq α]
    (l : List (α × β)) (k : α) : alist.lookup (alist.erase l k) k = none := by
  induction l with
  | nil => rfl
  | cons hd tl ih =>
      rcases hd with ⟨k', v'⟩
      by_cases h : k' = k
      · simpa [alist.erase, h] using ih
      · simpa [alist.erase, alist.lookup, h] using ih

theorem alist.lookup_insertOrUpdate_self {α β : Type} [DecidableEq α]
    (l : List (α × β)) (k : α) (v : β) :
    alist.lookup (alist.insertOrUpdate l k v) k = some v := by
  induction l with
  | nil => simp [alist.insertOrUpdate, alist.lookup]
  | cons hd tl ih =>
      rcases hd with ⟨k', v'⟩
      by_cases h : k' = k
      · simp [alist.insertOrUpdate, alist.lookup, h]
      · simpa [alist.insertOrUpdate, alist.lookup, h] using ih

/-- C1: the spec's own scenario — a Future with multiplier 5, open 2
contracts at price 50 (this only records reference price 50, no cash
effect), then a second same-direction transaction of 1 contract at price
55.  The claim requires a payout of `(55-50)*5*2 = 50` computed from the
held amount BEFORE the second transaction's delta; the code calls
`execute_transaction` first (line 521) and then reads `position.amount`
(line 536), so it pays `(55-50)*5*3 = 75`: cash goes from 1000 to 1075,
not 1050. -/
theorem process_transaction_payout_uses_post_trade_amount :
    ((Ledger.init 1000).process_transaction ⟨futA, 2, 50, 0⟩ |>.bind
        (fun l => l.process_transaction ⟨futA, 1, 55, 1⟩)).map
      (fun l => (l._portfolio.cash,
        alist.lookup l._payout_last_sale_prices futA)) =
    .ok (1075, some 55) := by
  norm_num [Ledger.init, Ledger.process_transaction, Ledger.set_dirty_portfolio,
    Ledger.calculate_execution_cash_flow, Ledger.calculate_payout,
    PositionTracker.execute_transaction, PositionTracker.empty, Position.update,
    Position.new, Portfolio.init, alist.lookup, alist.insertOrUpdate, alist.erase,
    Asset.isFuture, Asset.multiplier, futA, exceptBindEq, exceptOkBind,
    exceptErrorBind, exceptMapOk, exceptMapError]

/-- C2 counterexample: after `pay_dividends 0` has paid the cash dividend
(7) and credited the 5 dividend shares (10 → 15), a second
`pay_dividends 0` does return a cash total of zero — but it credits the 5
stock-dividend shares again (15 → 20), because the stock obligation list is
never deleted.  This refutes the claim that the second call leaves every
position's amount unchanged. -/
theorem pay_dividends_second_call_recredits_stock :
    (divTracker.pay_dividends 0).2 = 7 ∧
    amountOf (divTracker.pay_dividends 0).1 eqA = 15 ∧
    ((divTracker.pay_dividends 0).1.pay_dividends 0).2 = 0 ∧
    amountOf ((divTracker.pay_dividends 0).1.pay_dividends 0).1 eqA = 20 := by
  norm_num [divTracker, PositionTracker.pay_dividends, PositionTracker.empty,
    amountOf, Position.new, alist.lookup, alist.insertOrUpdate, alist.erase,
    eqA, List.foldl]

/-- C2 (amended): `pay_dividends` is idempotent per pay-date only on the
cash side — a second call for the same date always returns a cash total of
zero, because the cash obligation list is deleted when first consumed; and
it leaves the tracker (hence every position's amount) unchanged exactly
when the date has no pending stock-dividend obligations, because the stock
obligation list is never deleted. -/
theorem pay_dividends_idempotent_without_stock (pt : PositionTracker) (d : Nat) :
    ((pt.pay_dividends d).1.pay_dividends d).2 = 0 ∧
    (alist.lookup pt._unpaid_stock_dividends d = none →
      ((pt.pay_dividends d).1.pay_dividends d).1 = (pt.pay_dividends d).1) := by
  cases hud : alist.lookup pt._unpaid_dividends d with
  | some ps =>
      constructor
      · simp [PositionTracker.pay_dividends, hud, alist.lookup_erase_self]
      · intro h
        simp [PositionTracker.pay_dividends, hud, h, alist.lookup_erase_self]
  | none =>
      constructor
      · simp [PositionTracker.pay_dividends, hud]
      · intro h
        simp [PositionTracker.pay_dividends, hud, h]

/-- C2 witness: a tracker holding only a cash dividend obligation for date
0; the second call returns zero and leaves the state untouched. -/
theorem pay_dividends_idempotent_without_stock_witness :
    ((cashDivTracker.pay_dividends 0).1.pay_dividends 0).2 = 0 ∧
    ((cashDivTracker.pay_dividends 0).1.pay_dividends 0).1 =
      (cashDivTracker.pay_dividends 0).1 :=
  ⟨(pay_dividends_idempotent_without_stock cashDivTracker 0).1,
   (pay_dividends_idempotent_without_stock cashDivTracker 0).2 rfl⟩

/-- C3: reading the portfolio property on a dirty ledger with one recorded
leveraged-instrument reference price does not compute the mark-to-market
payout sum — it raises `AttributeError`, because line 720 of the source
reads `positions.amount` (an attribute of the positions dict itself)
instead of `position.amount`. -/
theorem portfolio_read_with_reference_price_raises :
    futLedger.portfolio = .error .attributeError := by
  simp [futLedger, Ledger.portfolio, PositionTracker.stats, PositionTracker.empty,
    Ledger.get_payout_total, positiondictAmount, List.foldlM, Ledger.init,
    exceptOkBind, exceptErrorBind, exceptBindEq]

/-- C4: `Ledger.sync_last_sale_prices` updates the position's last sale
price (10 → 12) but writes the misspelled attribute `_portfolio_dirty`
instead of the `_dirty_portfolio` property, so the dirty flag stays
`false` and a subsequent portfolio read returns the pre-sync cached
snapshot unchanged (positions_value 100), even though recomputation from
the synced price would yield 120. -/
theorem sync_last_sale_prices_leaves_portfolio_cache_stale :
    syncedLedger._dirty_portfolio = false ∧
    (alist.lookup syncedLedger.position_tracker.positions eqA).map
      Position.last_sale_price = some 12 ∧
    syncedLedger.portfolio = .ok (cleanLedger._portfolio, syncedLedger) ∧
    (({ syncedLedger with _dirty_portfolio := true } : Ledger).portfolio).map
      (fun x => x.1.positions_value) = .ok 120 := by
  refine ⟨rfl, by norm_num [syncedLedger, cleanLedger, Ledger.init,
    Ledger.sync_last_sale_prices, PositionTracker.sync_last_sale_prices,
    PositionTracker.empty, alist.lookup, eqA], rfl, ?_⟩
  norm_num [syncedLedger, cleanLedger, Ledger.init, Ledger.sync_last_sale_prices,
    PositionTracker.sync_last_sale_prices, PositionTracker.empty, Portfolio.init,
    Ledger.portfolio, PositionTracker.stats, statsOf, statsStep,
    Ledger.get_payout_total, portfolioRecompute, List.foldlM, List.foldl,
    alist.lookup, eqA, exceptOkBind, exceptErrorBind, exceptBindEq, exceptMapOk]

/-- C5: over two long positions with exposures 10 and 20 and two short
positions with exposures -5 and -7, the recomputed stats report
`long_exposure = 20` — only the exposure of the last long position
iterated, because line 343 overwrites instead of accumulating — while
`short_exposure = -12` is the sum of the short side; `gross_exposure` and
`net_exposure` are derived from the overwritten value.  The claim's sum
over longs would be 30. -/
theorem stats_long_exposure_overwritten :
    (statsOf statsPositions).long_exposure = 20 ∧
    (statsOf statsPositions).short_exposure = -12 ∧
    (statsOf statsPositions).gross_exposure = 32 ∧
    (statsOf statsPositions).net_exposure = 8 := by
  norm_num [statsOf, statsPositions, statsStep, eqA, eqB, eqC, eqD, List.foldl]

/-- C6: after recording order id 0 at time 0, order id 1 at time 0, and an
update to order id 0 at a fresh timestamp 1, the "latest version per id"
journal holds exactly one entry for id 0 and it carries the latest record
(version 2) — but the entry sits in the FIRST position, not the last: the
`KeyError` branch of `process_order` assigns the per-id entry in place and
never calls `move_to_end`. -/
theorem process_order_new_bucket_skips_move_to_end :
    ordersLedger._orders_by_id = [(0, ⟨0, 1, 2⟩), (1, ⟨1, 0, 1⟩)] ∧
    ordersLedger._orders_by_modified =
      [(0, [(0, ⟨0, 0, 1⟩), (1, ⟨1, 0, 1⟩)]), (1, [(0, ⟨0, 1, 2⟩)])] := by
  constructor <;> rfl

/-- One `execute_transaction` step adds the fill's signed quantity to the
amount the book records for the fill's asset (recording zero when the
position was deleted). -/
theorem execute_transaction_amount (pt : PositionTracker) (t : Transaction) :
    amountOf (pt.execute_transaction t) t.asset = amountOf pt t.asset + t.amount := by
  have hupd : ∀ p : Position, (p.update t).amount = p.amount + t.amount := by
    intro p; simp [Position.update]
  cases hl : alist.lookup pt.positions t.asset with
  | some p =>
      by_cases hz : p.amount + t.amount = 0
      · simp [PositionTracker.execute_transaction, hl, hz, amountOf,
          alist.lookup_erase_self, hupd]
      · simp [PositionTracker.execute_transaction, hl, hz, amountOf,
          alist.lookup_insertOrUpdate_self, hupd]
  | none =>
      by_cases hz : t.amount = 0
      · simp [PositionTracker.execute_transaction, hl, hz, amountOf,
          alist.lookup_erase_self, hupd, Position.new]
      · simp [PositionTracker.execute_transaction, hl, hz, amountOf,
          alist.lookup_insertOrUpdate_self, hupd, Position.new]

/-- One `execute_transaction` step on a book that is empty or holds exactly
the fill's asset (with nonzero amount) leaves the book in the same shape. -/
theorem execute_transaction_shape (a : Asset) (pt : PositionTracker)
    (t : Transaction) (ht : t.asset = a)
    (hinv : pt.positions = [] ∨ ∃ p, pt.positions = [(a, p)] ∧ p.amount ≠ 0) :
    (pt.execute_transaction t).positions = [] ∨
      ∃ p, (pt.execute_transaction t).positions = [(a, p)] ∧ p.amount ≠ 0 := by
  subst ht
  rcases hinv with h0 | ⟨p, hp, hpa⟩
  · by_cases hz : ((Position.new t.asset).update t).amount = 0
    · left
      simp [PositionTracker.execute_transaction, h0, alist.lookup, hz, alist.erase]
    · right
      refine ⟨(Position.new t.asset).update t, ?_, hz⟩
      simp [PositionTracker.execute_transaction, h0, alist.lookup, hz,
        alist.insertOrUpdate]
  · by_cases hz : (p.update t).amount = 0
    · left
      simp [PositionTracker.execute_transaction, hp, alist.lookup, hz, alist.erase]
    · right
      refine ⟨p.update t, ?_, hz⟩
      simp [PositionTracker.execute_transaction, hp, alist.lookup, hz,
        alist.insertOrUpdate]

/-- Folding `execute_transaction` over fills that all trade one asset `a`
preserves the book shape and adds the fills' net signed quantity to the
amount recorded for `a`. -/
theorem runTransactions_single_asset (a : Asset) (txns : List Transaction) :
    ∀ pt : PositionTracker, (∀ t ∈ txns, t.asset = a) →
    (pt.positions = [] ∨ ∃ p, pt.positions = [(a, p)] ∧ p.amount ≠ 0) →
    ((runTransactions pt txns).positions = [] ∨
      ∃ p, (runTransactions pt txns).positions = [(a, p)] ∧ p.amount ≠ 0) ∧
    amountOf (runTransactions pt txns) a =
      amountOf pt a + (txns.map Transaction.amount).sum := by
  induction txns with
  | nil =>
      intro pt _ hinv
      exact ⟨hinv, by simp [runTransactions]⟩
  | cons t ts ih =>
      intro pt hall hinv
      have ht : t.asset = a := hall t (by simp)
      have hts : ∀ x ∈ ts, x.asset = a := fun x hx => hall x (by simp [hx])
      have hshape := execute_transaction_shape a pt t ht hinv
      have hrun : runTransactions pt (t :: ts) =
          runTransactions (pt.execute_transaction t) ts := rfl
      obtain ⟨hs, ha⟩ := ih (pt.execute_transaction t) hts hshape
      refine ⟨by rwa [hrun], ?_⟩
      rw [hrun, ha]
      have hstep := execute_transaction_amount pt t
      rw [ht] at hstep
      rw [hstep]
      simp only [List.map_cons, List.sum_cons]
      ring

/-- C7: for every sequence of fills on one instrument executed from an
empty book via `execute_transaction`, the instrument is absent from the
position book if and only if the net signed quantity of the sequence is
exactly zero (a position whose amount reaches 0 is removed by the step that
zeroed it). -/
theorem position_absent_iff_net_quantity_zero (a : Asset)
    (txns : List Transaction) (h : ∀ t ∈ txns, t.asset = a) :
    alist.lookup (runTransactions PositionTracker.empty txns).positions a = none ↔
    (txns.map Transaction.amount).sum = 0 := by
  obtain ⟨hshape, hamount⟩ :=
    runTransactions_single_asset a txns PositionTracker.empty h (Or.inl rfl)
  have hempty : amountOf PositionTracker.empty a = 0 := rfl
  rw [hempty, zero_add] at hamount
  constructor
  · intro hnone
    rw [← hamount]
    rcases hshape with h0 | ⟨p, hp, hpa⟩
    · simp [amountOf, h0, alist.lookup]
    · rw [hp] at hnone
      simp [alist.lookup] at hnone
  · intro hsum
    rcases hshape with h0 | ⟨p, hp, hpa⟩
    · simp [h0, alist.lookup]
    · exfalso
      apply hpa
      rw [← hamount] at hsum
      simpa [amountOf, hp, alist.lookup] using hsum

/-- C7 witness: buying 2 shares and selling 2 shares of `eqA` (net zero)
leaves `eqA` absent from the book. -/
theorem position_absent_iff_net_quantity_zero_witness :
    alist.lookup (runTransactions PositionTracker.empty
        [⟨eqA, 2, 10, 0⟩, ⟨eqA, -2, 11, 1⟩]).positions eqA = none ↔
    ([(⟨eqA, 2, 10, 0⟩ : Transaction), ⟨eqA, -2, 11, 1⟩].map
      Transaction.amount).sum = 0 :=
  position_absent_iff_net_quantity_zero eqA _ (by simp)

/-- C8: a successful `calculate_period_stats` returns net liquidation
`cash + long_value + short_value` together with leverage values that are
`np.inf` (not an error) whenever the net liquidation is zero — for any
exposure values — and `exposure / net_liquidation` otherwise. -/
theorem calculate_period_stats_leverage (l : Ledger) (s : PositionStats)
    (pt' : PositionTracker) (h : l.position_tracker.stats = .ok (s, pt')) :
    l.calculate_period_stats =
      .ok ((l._portfolio.cash + s.long_value + s.short_value,
        if l._portfolio.cash + s.long_value + s.short_value = 0 then PyVal.inf
        else PyVal.num (s.gross_exposure /
          (l._portfolio.cash + s.long_value + s.short_value)),
        if l._portfolio.cash + s.long_value + s.short_value = 0 then PyVal.inf
        else PyVal.num (s.net_exposure /
          (l._portfolio.cash + s.long_value + s.short_value))),
        { l with position_tracker := pt' }) := by
  by_cases hnl : l._portfolio.cash + s.long_value + s.short_value = 0 <;>
    simp [Ledger.calculate_period_stats, h, Ledger.calculate_net_liquidation,
      Ledger.calculate_leverage, hnl, exceptOkBind]

/-- C8 Witness: a fresh ledger with capital base 0 — net liquidation is 0
and both leverages come back as infinity. -/
theorem calculate_period_stats_leverage_witness :
    (Ledger.init 0).calculate_period_stats =
      .ok ((0, PyVal.inf, PyVal.inf),
        { Ledger.init 0 with position_tracker := emptyStatsTracker }) := by
  have h := calculate_period_stats_leverage (Ledger.init 0) (statsOf [])
    emptyStatsTracker rfl
  simpa [Ledger.init, Portfolio.init, statsOf, List.foldl] using h

/-- The compounding identity of the portfolio recomputation: when the
previous portfolio value is nonzero, the new returns equal
`(1 + old returns) * (new portfolio value / old portfolio value) - 1`. -/
theorem portfolioRecompute_returns (p : Portfolio) (s : PositionStats)
    (payout : ℚ) (h : p.portfolio_value ≠ 0) :
    (portfolioRecompute p s payout).returns =
      (1 + p.returns) *
        ((portfolioRecompute p s payout).portfolio_value / p.portfolio_value) -
      1 := by
  simp only [portfolioRecompute, if_pos h]
  field_simp

/-- A successful read of a dirty portfolio produces `portfolioRecompute` of
the previous record for some stats and payout total. -/
theorem portfolio_ok_of_dirty (l : Ledger) (p : Portfolio) (l' : Ledger)
    (hd : l._dirty_portfolio = true) (h : l.portfolio = .ok (p, l')) :
    ∃ s payout, p = portfolioRecompute l._portfolio s payout := by
  unfold Ledger.portfolio at h
  rw [hd] at h
  simp only [Bool.not_true, Bool.false_eq_true, if_false] at h
  cases hs : l.position_tracker.stats with
  | error e =>
      rw [hs] at h
      simp [exceptErrorBind] at h
  | ok x =>
      rcases x with ⟨s, pt⟩
      rw [hs] at h
      simp only [exceptOkBind] at h
      cases hp : Ledger.get_payout_total l._payout_last_sale_prices pt.positions with
      | error e =>
          rw [hp] at h
          simp [exceptOkBind, exceptErrorBind] at h
      | ok payout =>
          rw [hp] at h
          simp only [exceptOkBind, Except.ok.injEq, Prod.mk.injEq] at h
          exact ⟨s, payout, h.1.symm⟩

/-- C9: compounded-returns path independence — starting from a portfolio
with returns 0 and value V0 ≠ 0, two successive
mutation-batch-then-portfolio-read steps (the batches may change cash flow
or positions but, absent `capital_change`, never touch the cached
`portfolio_value` or `returns`) yield accumulated returns
`V2 / V0 - 1`, independent of the intermediate value V1. -/
theorem portfolio_returns_compound_two_steps
    (l1 l2 l1' l2' : Ledger) (p1 p2 : Portfolio)
    (hr0 : l1._portfolio.returns = 0)
    (hv0 : l1._portfolio.portfolio_value ≠ 0)
    (hd1 : l1._dirty_portfolio = true)
    (h1 : l1.portfolio = .ok (p1, l1'))
    (hv1 : p1.portfolio_value ≠ 0)
    (hb1 : l2._portfolio.portfolio_value = p1.portfolio_value)
    (hb2 : l2._portfolio.returns = p1.returns)
    (hd2 : l2._dirty_portfolio = true)
    (h2 : l2.portfolio = .ok (p2, l2')) :
    p2.returns = p2.portfolio_value / l1._portfolio.portfolio_value - 1 := by
  obtain ⟨s1, pay1, hp1⟩ := portfolio_ok_of_dirty l1 p1 l1' hd1 h1
  obtain ⟨s2, pay2, hp2⟩ := portfolio_ok_of_dirty l2 p2 l2' hd2 h2
  have e1 : p1.returns = (1 + l1._portfolio.returns) *
      (p1.portfolio_value / l1._portfolio.portfolio_value) - 1 := by
    rw [hp1]
    exact portfolioRecompute_returns _ _ _ hv0
  have e2 : p2.returns = (1 + l2._portfolio.returns) *
      (p2.portfolio_value / l2._portfolio.portfolio_value) - 1 := by
    rw [hp2]
    exact portfolioRecompute_returns _ _ _ (by rw [hb1]; exact hv1)
  rw [e2, hb2, hb1, e1, hr0]
  field_simp
  ring

/-- C9 witness: capital base 1000, first batch accumulates cash flow 50
(V1 = 1050), second batch raises it to 120 (V2 = 1120); the accumulated
returns equal V2/V0 - 1 = 0.12. -/
theorem portfolio_returns_compound_two_steps_witness :
    compoundSnap2.returns =
      compoundSnap2.portfolio_value /
        compoundLedger1._portfolio.portfolio_value - 1 :=
  portfolio_returns_compound_two_steps compoundLedger1 compoundLedger2
    compoundLedger1' compoundLedger2' compoundSnap1 compoundSnap2
    rfl
    (by norm_num [compoundLedger1, Ledger.init, Portfolio.init])
    rfl
    rfl
    (by norm_num [compoundSnap1, compoundLedger1, portfolioRecompute,
      Ledger.init, Portfolio.init, statsOf, List.foldl])
    rfl
    rfl
    rfl
    rfl

/-- C10: reading the account property on a dirty account whose recomputed
portfolio has `portfolio_value = 0` raises `ZeroDivisionError`: the cushion
computation `portfolio.cash / portfolio.portfolio_value` (source line 869)
is an unguarded division, unlike the leverage computations which return
infinity on a zero denominator. -/
theorem account_read_divides_by_zero (l : Ledger) (p : Portfolio) (l' : Ledger)
    (hd : l._dirty_account = true)
    (hp : l.portfolio = .ok (p, l'))
    (hpv : p.portfolio_value = 0) :
    l.account = .error .zeroDivisionError := by
  unfold Ledger.account
  rw [hd]
  simp [hp, hpv, pyDiv, exceptOkBind, exceptErrorBind]

/-- C10 witness: a fresh ledger with capital base 0 has portfolio value 0,
and its first account read fails with the division error. -/
theorem account_read_divides_by_zero_witness :
    (Ledger.init 0).account = .error .zeroDivisionError :=
  account_read_divides_by_zero (Ledger.init 0) (Portfolio.init 0)
    (Ledger.init 0) rfl rfl rfl
